import Mathlib

/-!
Shallow embedding of the redsea RDS core decoder (block synchronizer,
syndrome-based error corrector, group assembler) and proofs of the
specification claims against it.

Sources embedded: src/block_sync.cc, src/block_sync.h, src/groups.cc,
src/util.h. Machine integers are modelled as Nat (with explicit masking
where the C++ code masks or where a narrowing cast occurs) and C ints
that can go negative (sync-pulse bit counters) as Int with C-style
truncated division and remainder (Int.tdiv, Int.tmod).
-/

namespace redsea

/-! ## Constants (block_sync.cc lines 25-27) -/

def kBlockLength : Nat := 26

def kBlockBitmask : Nat := (1 <<< kBlockLength) - 1

def kCheckwordLength : Nat := 10

/-! ## Offsets and block numbers -/

/-- Offset word labels. The enumeration is declared in common.h, which is
not part of src/; the spec (section 3) gives the closed enumeration
{A, B, C, C-prime, D, invalid}. -/
inductive Offset where
  | A
  | B
  | C
  | Cprime
  | D
  | invalid
deriving DecidableEq

/-- Modelled from the spec: common.h (not in src/) declares eBlockNumber;
groups.cc indexes a four-element std::array with BLOCK1..BLOCK4, so they
are the indices 0..3. -/
def BLOCK1 : Nat := 0

/-- Block number 2 as an array index. -/
def BLOCK2 : Nat := 1

/-- Block number 3 as an array index. -/
def BLOCK3 : Nat := 2

/-- Block number 4 as an array index. -/
def BLOCK4 : Nat := 3

/-- block_sync.cc lines 30-42: each offset word is associated with one
block number. -/
def getBlockNumberForOffset (offset : Offset) : Nat :=
  match offset with
  | .A => BLOCK1
  | .B => BLOCK2
  | .C => BLOCK3
  | .Cprime => BLOCK3
  | .D => BLOCK4
  | .invalid => BLOCK1

/-- block_sync.cc lines 45-56: return the next offset word in sequence. -/
def getNextOffsetFor (this_offset : Offset) : Offset :=
  match this_offset with
  | .A => .B
  | .B => .C
  | .C => .D
  | .Cprime => .D
  | .D => .A
  | .invalid => .A

/-- block_sync.cc lines 59-69: IEC 62106:2015 section B.3.1 Table B.1. -/
def getOffsetForSyndrome (syndrome : Nat) : Offset :=
  match syndrome with
  | 0b1111011000 => .A
  | 0b1111010100 => .B
  | 0b1001011100 => .C
  | 0b1111001100 => .Cprime
  | 0b1001011000 => .D
  | _ => .invalid

/-! ## Syndrome calculation (block_sync.cc lines 71-111) -/

/-- The 26-row parity check matrix from calculateSyndrome. -/
def parityCheckMatrix : List Nat :=
  [ 0b1000000000,
    0b0100000000,
    0b0010000000,
    0b0001000000,
    0b0000100000,
    0b0000010000,
    0b0000001000,
    0b0000000100,
    0b0000000010,
    0b0000000001,
    0b1011011100,
    0b0101101110,
    0b0010110111,
    0b1010000111,
    0b1110011111,
    0b1100010011,
    0b1101010101,
    0b1101110110,
    0b0110111011,
    0b1000000001,
    0b1111011100,
    0b0111101110,
    0b0011110111,
    0b1010100111,
    0b1110001111,
    0b1100011011 ]

/-- block_sync.cc lines 105-110: result accumulates, over k = 0..25,
the xor of parity_check_matrix[25 - k] * ((vec >> k) & 1). -/
def calculateSyndrome (vec : Nat) : Nat :=
  (List.range 26).foldl
    (fun result k =>
      result ^^^ (parityCheckMatrix.getD (26 - 1 - k) 0) * ((vec >>> k) &&& 0b1))
    0

/-! ## Blocks -/

/-- Modelled from the spec: the Block record lives in common.h (not in
src/); spec section 3 lists raw, data, offset, is_received, had_errors.
Default-constructed blocks are not received, carry no errors and have no
recognized offset. -/
structure Block where
  raw : Nat := 0
  data : Nat := 0
  offset : Offset := .invalid
  is_received : Bool := false
  had_errors : Bool := false
deriving DecidableEq

/-- block_sync.h lines 43-46. -/
structure ErrorCorrectionResult where
  succeeded : Bool := false
  corrected_bits : Nat := 0
deriving DecidableEq

/-! ## Error lookup table (block_sync.cc lines 113-143) -/

/-- block_sync.cc lines 119-125: Table B.1 offset words, in std::map key
order. -/
def offsetWords : List (Offset × Nat) :=
  [ (.A,      0b0011111100),
    (.B,      0b0110011000),
    (.C,      0b0101101000),
    (.Cprime, 0b1101010000),
    (.D,      0b0110110100) ]

/-- std::map::insert does not overwrite an existing key; the association
list keeps the first value inserted for each key. -/
def insertIfAbsent (m : List ((Nat × Offset) × Nat)) (key : Nat × Offset) (value : Nat) :
    List ((Nat × Offset) × Nat) :=
  if (m.lookup key).isSome then m else m ++ [(key, value)]

/-- block_sync.cc lines 115-143: precompute mapping of syndromes to error
vectors, for single-bit and two-adjacent-bit bursts at every shift. -/
def makeErrorLookupTable : List ((Nat × Offset) × Nat) :=
  offsetWords.foldl
    (fun table offset =>
      [0b1, 0b11].foldl
        (fun table error_bits =>
          (List.range kBlockLength).foldl
            (fun table shift =>
              let error_vector := (error_bits <<< shift) &&& kBlockBitmask
              let syndrome := calculateSyndrome (error_vector ^^^ offset.2)
              insertIfAbsent table (syndrome, offset.1) error_vector)
            table)
        table)
    []

/-- The function-level static in correctBurstErrors (line 147):
process-wide immutable table. -/
def errorLookupTable : List ((Nat × Offset) × Nat) := makeErrorLookupTable

/-- block_sync.cc lines 146-162: EN 50067:1998 section B.2.2. The C++
narrows the syndrome through uint16_t, modelled by the explicit mod. -/
def correctBurstErrors (block : Block) (expected_offset : Offset) : ErrorCorrectionResult :=
  let syndrome := calculateSyndrome block.raw % 65536
  match errorLookupTable.lookup (syndrome, expected_offset) with
  | some err => { corrected_bits := block.raw ^^^ err, succeeded := true }
  | none => { corrected_bits := block.raw, succeeded := false }

/-! ## Sync pulse buffer (block_sync.h lines 29-41, block_sync.cc 164-190) -/

/-- block_sync.h lines 29-32: a sighting of an offset word, default
offset invalid and bit counter -1. -/
structure SyncPulse where
  offset : Offset := .invalid
  bitcount : Int := -1
deriving DecidableEq

/-- block_sync.h lines 34-41: ring of the last four sightings. -/
structure SyncPulseBuffer where
  pulses : List SyncPulse := List.replicate 4 {}
deriving DecidableEq

/-- block_sync.cc lines 164-174: shift the buffer left and append. -/
def SyncPulseBuffer.push (buf : SyncPulseBuffer) (offset : Offset) (bitcount : Int) :
    SyncPulseBuffer :=
  { pulses := buf.pulses.drop 1 ++ [{ offset := offset, bitcount := bitcount }] }

/-- block_sync.cc lines 176-190. C++ int division and remainder truncate
toward zero, hence Int.tdiv and Int.tmod. -/
def SyncPulseBuffer.isSequenceFound (buf : SyncPulseBuffer) : Bool :=
  let back := buf.pulses.getLastD {}
  (List.range 3).any fun prev_i =>
    let p := buf.pulses.getD prev_i {}
    let sync_distance : Int := back.bitcount - p.bitcount
    decide (Int.tmod sync_distance 26 = 0) &&
    decide (Int.tdiv sync_distance 26 ≤ 6) &&
    decide (p.offset ≠ Offset.invalid) &&
    decide (Int.tmod ((getBlockNumberForOffset p.offset : Int) + Int.tdiv sync_distance 26) 4 =
            (getBlockNumberForOffset back.offset : Int))

/-! ## Running sum over the last 50 blocks (util.h lines 106-126) -/

/-- util.h lines 106-126 with T = int, N = 50; only 0/1 flags are pushed,
so Nat suffices. -/
structure RunningSum50 where
  history : List Nat := List.replicate 50 0
  pointer : Nat := 0
deriving DecidableEq

/-- util.h lines 112-114. -/
def RunningSum50.getSum (s : RunningSum50) : Nat := s.history.sum

/-- util.h lines 115-118. -/
def RunningSum50.push (s : RunningSum50) (number : Nat) : RunningSum50 :=
  { history := s.history.set s.pointer number, pointer := (s.pointer + 1) % 50 }

/-- util.h lines 119-121. -/
def RunningSum50.clear (s : RunningSum50) : RunningSum50 :=
  { s with history := List.replicate 50 0 }

/-! ## Group types and groups (groups.cc lines 55-192) -/

/-- Version A or B of a group type (groups.cc line 57). -/
inductive GroupVersion where
  | A
  | B
deriving DecidableEq

/-- groups.cc lines 55-57. -/
structure GroupType where
  number : Nat := 0
  version : GroupVersion := .A
deriving DecidableEq

/-- groups.cc lines 55-57: GroupType from a 5-bit type code:
number = bits 4..1, version = bit 0. -/
def GroupType.ofCode (type_code : Nat) : GroupType :=
  { number := (type_code >>> 1) &&& 0xF,
    version := if type_code &&& 0x1 = 0 then .A else .B }

/-- util.h lines 32-36: extract an n-bit field of word starting at bit
starting_at from the right. -/
def getBits (n : Nat) (word : Nat) (starting_at : Nat) : Nat :=
  (word >>> starting_at) &&& ((1 <<< n) - 1)

/-- A single RDS group of four blocks (groups.cc lines 73-192). The four
std::array slots are the four fields block1..block4 (indices 0..3).
Default field values are modelled from the spec (the class body is in
groups.h, not in src/): a fresh group has no received blocks, no type and
no offsets hint; has_c_prime is read in groups.cc (lines 167, 170) and
never assigned in any file under src/, so it stays at its default. -/
structure Group where
  block1 : Block := {}
  block2 : Block := {}
  block3 : Block := {}
  block4 : Block := {}
  type_ : GroupType := {}
  has_type : Bool := false
  has_c_prime : Bool := false
  no_offsets : Bool := false
deriving DecidableEq

/-- Array access blocks_[block_num] for indices 0..3. -/
def Group.blockAt (g : Group) (block_num : Nat) : Block :=
  match block_num with
  | 0 => g.block1
  | 1 => g.block2
  | 2 => g.block3
  | _ => g.block4

/-- Array update blocks_[block_num] = block. -/
def Group.setBlockAt (g : Group) (block_num : Nat) (block : Block) : Group :=
  match block_num with
  | 0 => { g with block1 := block }
  | 1 => { g with block2 := block }
  | 2 => { g with block3 := block }
  | _ => { g with block4 := block }

/-- groups.cc lines 100-102. -/
def Group.has (g : Group) (block_num : Nat) : Bool :=
  (g.blockAt block_num).is_received

/-- groups.cc lines 104-106. -/
def Group.isEmpty (g : Group) : Bool :=
  !(g.has BLOCK1 || g.has BLOCK2 || g.has BLOCK3 || g.has BLOCK4)

/-- groups.cc lines 109-117. -/
def Group.getPI (g : Group) : Nat :=
  if (g.blockAt BLOCK1).is_received then (g.blockAt BLOCK1).data
  else if (g.blockAt BLOCK3).is_received ∧ (g.blockAt BLOCK3).offset = Offset.Cprime then
    (g.blockAt BLOCK3).data
  else 0x0000

/-- groups.cc lines 130-133. -/
def Group.hasPI (g : Group) : Bool :=
  (g.blockAt BLOCK1).is_received ||
    ((g.blockAt BLOCK3).is_received && decide ((g.blockAt BLOCK3).offset = Offset.Cprime))

/-- groups.cc lines 159-182. -/
def Group.setBlock (g : Group) (block_num : Nat) (block : Block) : Group :=
  let g := g.setBlockAt block_num block
  let g :=
    if block_num = BLOCK2 then
      let t := GroupType.ofCode (getBits 5 block.data 11)
      if t.version = GroupVersion.A then
        { g with type_ := t, has_type := true }
      else
        { g with type_ := t, has_type := g.has_c_prime || g.no_offsets }
    else if block_num = BLOCK4 then
      if g.has_c_prime && !g.has_type then
        let potential_type := GroupType.ofCode (getBits 5 block.data 11)
        if potential_type.number = 15 ∧ potential_type.version = GroupVersion.B then
          { g with type_ := potential_type, has_type := true }
        else g
      else g
    else g
  if block.offset = Offset.Cprime ∧ g.has BLOCK2 then
    { g with has_type := decide (g.type_.version = GroupVersion.B) }
  else g

/-! ## Hex serialization (groups.cc lines 199-213) -/

/-- Uppercase hex digit for a nybble. -/
def hexDigit (n : Nat) : Char :=
  "0123456789ABCDEF".toList.getD n '0'

/-- One 16-bit word as four uppercase zero-padded hex nybbles, as
produced by the stream with fill 0, uppercase, setw(4) for uint16 data. -/
def getHex4 (value : Nat) : String :=
  String.mk
    [ hexDigit ((value >>> 12) &&& 0xF),
      hexDigit ((value >>> 8) &&& 0xF),
      hexDigit ((value >>> 4) &&& 0xF),
      hexDigit (value &&& 0xF) ]

/-- groups.cc lines 199-213: print the raw group data encoded as hex;
invalid blocks are replaced with the four-dash sentinel. -/
def Group.printHex (g : Group) : String :=
  [BLOCK1, BLOCK2, BLOCK3, BLOCK4].foldl
    (fun acc block_num =>
      let block := g.blockAt block_num
      let acc := acc ++ (if block.is_received then getHex4 block.data else "----")
      if block_num ≠ BLOCK4 then acc ++ " " else acc)
    ""

/-! ## Block stream state machine (block_sync.h 48-75, block_sync.cc 192-298) -/

/-- block_sync.h lines 48-75: the synchronizer state. The function-level
static SyncPulseBuffer in acquireSync (block_sync.cc line 206) is
process-wide state shared by every BlockStream instance, so it is threaded
separately through the transition functions. -/
structure BlockStream where
  bitcount : Int := 0
  num_bits_until_next_block : Int := 1
  input_register : Nat := 0
  expected_offset : Offset := .A
  is_in_sync : Bool := false
  block_error_sum50 : RunningSum50 := {}
  current_group : Group := {}
  ready_group : Group := {}
  has_group_ready : Bool := false
  num_bits_since_sync_lost : Nat := 0
deriving DecidableEq

/-- block_sync.cc lines 196-203: EN 50067:1998 section C.1.2, sync is
lost when more than 45 of the last 50 blocks are erroneous. -/
def BlockStream.handleUncorrectableError (st : BlockStream) : BlockStream :=
  if st.is_in_sync ∧ st.block_error_sum50.getSum > 45 then
    { st with is_in_sync := false, block_error_sum50 := st.block_error_sum50.clear }
  else st

/-- block_sync.cc lines 205-224: try to find a repeating offset sequence.
The sync_buffer argument is the function-level static. -/
def BlockStream.acquireSync (st : BlockStream) (sync_buffer : SyncPulseBuffer) (block : Block) :
    BlockStream × SyncPulseBuffer :=
  if st.is_in_sync then (st, sync_buffer)
  else
    let st := { st with num_bits_since_sync_lost := st.num_bits_since_sync_lost + 1 }
    if block.offset ≠ Offset.invalid then
      let sync_buffer := sync_buffer.push block.offset st.bitcount
      if sync_buffer.isSequenceFound then
        ({ st with is_in_sync := true, expected_offset := block.offset,
                   current_group := {}, num_bits_since_sync_lost := 0 }, sync_buffer)
      else (st, sync_buffer)
    else (st, sync_buffer)

/-- block_sync.cc lines 277-281. -/
def BlockStream.handleNewlyReceivedGroup (st : BlockStream) : BlockStream :=
  { st with ready_group := st.current_group, has_group_ready := true, current_group := {} }

/-- block_sync.cc lines 264-274: the tail of findBlockInInputRegister
shared by every in-sync path: store the block if its (possibly corrected)
offset matches, advance the expected offset, and emit the group when the
cycle rolls over to A. -/
def BlockStream.finishBlock (st : BlockStream) (block : Block) : BlockStream :=
  let st :=
    if block.offset = st.expected_offset then
      { st with current_group :=
          (st.current_group.setBlock (getBlockNumberForOffset st.expected_offset)
            { block with is_received := true }) }
    else st
  let st := { st with expected_offset := getNextOffsetFor st.expected_offset }
  if st.expected_offset = Offset.A then st.handleNewlyReceivedGroup else st

/-- block_sync.cc lines 245-274: the body of the is_in_sync branch of
findBlockInInputRegister. -/
def BlockStream.processBlockInSync (st0 : BlockStream) (b : Block) : BlockStream :=
  let expected :=
    if st0.expected_offset = Offset.C ∧ b.offset = Offset.Cprime then Offset.Cprime
    else st0.expected_offset
  let st := { st0 with expected_offset := expected }
  let had_errors := decide (b.offset ≠ expected)
  let st := { st with block_error_sum50 :=
                st.block_error_sum50.push (if had_errors then 1 else 0) }
  let block := { b with had_errors := had_errors, data := b.raw >>> kCheckwordLength }
  if had_errors then
    let correction := correctBurstErrors block expected
    if correction.succeeded then
      st.finishBlock { block with data := correction.corrected_bits >>> kCheckwordLength,
                                  offset := expected }
    else
      st.handleUncorrectableError.finishBlock block
  else
    st.finishBlock block

/-- block_sync.cc lines 238-275: take the low 26 bits as a candidate
block, label it by syndrome (narrowed through uint16_t), try to acquire
sync, and process the block when in sync. -/
def BlockStream.findBlockInInputRegister (st : BlockStream) (sync_buffer : SyncPulseBuffer) :
    BlockStream × SyncPulseBuffer :=
  let raw := st.input_register &&& kBlockBitmask
  let block : Block := { raw := raw,
                         offset := getOffsetForSyndrome (calculateSyndrome raw % 65536) }
  let res := st.acquireSync sync_buffer block
  if res.1.is_in_sync then (res.1.processBlockInSync block, res.2) else res

/-- block_sync.cc lines 226-236: shift in one bit (32-bit register),
count down to the next decision point. -/
def BlockStream.pushBit (st : BlockStream) (sync_buffer : SyncPulseBuffer) (bit : Bool) :
    BlockStream × SyncPulseBuffer :=
  let st := { st with
    input_register := (st.input_register <<< 1 + (if bit then 1 else 0)) % 4294967296,
    num_bits_until_next_block := st.num_bits_until_next_block - 1,
    bitcount := st.bitcount + 1 }
  if st.num_bits_until_next_block = 0 then
    let res := st.findBlockInInputRegister sync_buffer
    ({ res.1 with num_bits_until_next_block :=
         if res.1.is_in_sync then (kBlockLength : Int) else 1 }, res.2)
  else (st, sync_buffer)

/-- block_sync.cc lines 287-290. -/
def BlockStream.popGroup (st : BlockStream) : Group × BlockStream :=
  (st.ready_group, { st with has_group_ready := false })

/-- Driver loop of the group-consumer contract (spec section 6): push one
bit, then poll hasGroupReady and pop. -/
def BlockStream.pushBitAndPoll (st : BlockStream) (sync_buffer : SyncPulseBuffer) (bit : Bool) :
    BlockStream × SyncPulseBuffer × Option Group :=
  let res := st.pushBit sync_buffer bit
  if res.1.has_group_ready then
    let pg := res.1.popGroup
    (pg.2, res.2, some pg.1)
  else (res.1, res.2, none)

/-- Push a bit sequence through a stream, collecting the emitted groups
in order. -/
def runBits (st : BlockStream) (sync_buffer : SyncPulseBuffer) (bits : List Bool) :
    BlockStream × SyncPulseBuffer × List Group :=
  bits.foldl
    (fun acc bit =>
      let step := acc.1.pushBitAndPoll acc.2.1 bit
      (step.1, step.2.1, acc.2.2 ++ (step.2.2.map (fun g => [g])).getD []))
    (st, sync_buffer, [])

/-! ## Station PI gating (groups.cc lines 220-249) -/

/-- Station state relevant to PI gating (groups.cc lines 236-249). Only
the gate is modelled; the per-group-type decoding it guards is out of the
core scope (spec section 1), abstracted as the optional emitted group. -/
structure Station where
  has_pi : Bool := false
  last_group_had_pi : Bool := false
deriving DecidableEq

/-- groups.cc lines 236-249: drop everything without a PI policy; allow
one group with missed PI; skip empty groups. Returns the updated station
and the group that reaches the decode-and-print stage, if any. -/
def Station.updateAndPrint (st : Station) (group : Group) : Station × Option Group :=
  if !st.has_pi then (st, none)
  else if group.hasPI then
    let st := { st with last_group_had_pi := true }
    if group.isEmpty then (st, none) else (st, some group)
  else if st.last_group_had_pi then
    let st := { st with last_group_had_pi := false }
    if group.isEmpty then (st, none) else (st, some group)
  else (st, none)

/-- Feed a sequence of groups to a station, collecting per-group output. -/
def Station.processGroups (st : Station) (groups : List Group) :
    Station × List (Option Group) :=
  groups.foldl
    (fun acc group =>
      let step := acc.1.updateAndPrint group
      (step.1, acc.2 ++ [step.2]))
    (st, [])

/-- The offset-word syndromes the spec lists in section 4.1. -/
def specSyndrome (o : Offset) : Nat :=
  match o with
  | .A => 0b1111011000
  | .B => 0b1111010100
  | .C => 0b1001011100
  | .Cprime => 0b1111001100
  | .D => 0b1001011000
  | .invalid => 0

/-- The SequenceFound test in the words of the spec (section 4.3), read
with mathematical divisibility and Euclidean division and remainder
(Int division and modulus, whose remainder is nonnegative). -/
def specSequenceFound (buf : SyncPulseBuffer) : Prop :=
  ∃ i, i < 3 ∧
    ((26 : Int) ∣ ((buf.pulses.getLastD {}).bitcount - (buf.pulses.getD i {}).bitcount) ∧
     ((buf.pulses.getLastD {}).bitcount - (buf.pulses.getD i {}).bitcount) / 26 ≤ 6 ∧
     (buf.pulses.getD i {}).offset ≠ Offset.invalid ∧
     ((getBlockNumberForOffset (buf.pulses.getD i {}).offset : Int) +
         ((buf.pulses.getLastD {}).bitcount - (buf.pulses.getD i {}).bitcount) / 26) % 4 =
       (getBlockNumberForOffset (buf.pulses.getLastD {}).offset : Int))

/-- A buffer in which an older pulse is 78 bits in the future relative to
the newest entry (reachable through the process-wide static buffer which
survives across BlockStream instances). -/
def c4CounterBuffer : SyncPulseBuffer :=
  { pulses := [{ offset := Offset.A, bitcount := 104 }, {}, {},
               { offset := Offset.B, bitcount := 26 }] }

/-- A buffer holding two sightings 26 bits apart with consecutive block
numbers, as produced during normal sync acquisition. -/
def c4WitnessBuffer : SyncPulseBuffer :=
  { pulses := [{}, {}, { offset := Offset.A, bitcount := 26 },
               { offset := Offset.B, bitcount := 52 }] }

/-- A block-2 payload whose 5-bit type code has version bit 0, giving a
version-A group type. -/
def c6Block2 : Block := { data := 0x0000, offset := Offset.B, is_received := true }

/-- A group with block 2 installed and a version-A type. -/
def c6GroupBefore : Group := Group.setBlock {} BLOCK2 c6Block2

/-- A received block-3 tagged with offset C-prime. -/
def c6CprimeBlock : Block := { data := 0x1234, offset := Offset.Cprime, is_received := true }

/-- The group of scenario S6: blocks 1, 2, 4 received with 0xE242,
0x0000, 0x2020 and block 3 missing. -/
def c8ExampleGroup : Group :=
  { block1 := { data := 0xE242, offset := Offset.A, is_received := true },
    block2 := { data := 0x0000, offset := Offset.B, is_received := true },
    block4 := { data := 0x2020, offset := Offset.D, is_received := true } }

/-- The station with a PI policy used in the C10 scenarios. -/
def c10Station : Station := { has_pi := true }

/-- A group carrying PI in block 1. -/
def c10GroupWithPI : Group :=
  { block1 := { raw := 0, data := 0xE242, offset := Offset.A, is_received := true } }

/-- Bits of a word, most significant first, as pushed into the decoder. -/
def bitsOfWord (w : Nat) (n : Nat) : List Bool :=
  (List.range n).map (fun i => w.testBit (n - 1 - i))

/-- A 52-bit input: 26 zero bits, then the 26-bit word whose low ten bits
are offset word D (its syndrome is the offset-D syndrome and no other
window of the sequence has a recognized syndrome). -/
def c5Bits : List Bool := List.replicate 26 false ++ bitsOfWord 0b0110110100 26

/-- The low 26 bits of the input register, the block candidate examined
at a decision point. -/
def BlockStream.candidateRaw (st : BlockStream) : Nat :=
  st.input_register &&& kBlockBitmask

/-- The offset the candidate block is labelled with by syndrome. -/
def BlockStream.observedOffset (st : BlockStream) : Offset :=
  getOffsetForSyndrome (calculateSyndrome st.candidateRaw % 65536)

/-- The expected offset after the C to C-prime switch. -/
def BlockStream.expectedAfterSwitch (st : BlockStream) : Offset :=
  if st.expected_offset = Offset.C ∧ st.observedOffset = Offset.Cprime then Offset.Cprime
  else st.expected_offset

/-- The current slot is errored: its syndrome does not match the expected
offset. -/
def BlockStream.slotErrored (st : BlockStream) : Prop :=
  st.observedOffset ≠ st.expectedAfterSwitch

/-- Burst correction of the current slot against the expected offset
succeeds. -/
def BlockStream.slotCorrectable (st : BlockStream) : Bool :=
  (correctBurstErrors { raw := st.candidateRaw, offset := st.observedOffset }
    st.expectedAfterSwitch).succeeded

/-- The in-sync state used to instantiate the per-slot sync-loss
characterization: expecting offset A with offset word A in the register. -/
def c3WitnessState : BlockStream :=
  { input_register := 0b0011111100, expected_offset := Offset.A, is_in_sync := true }

/-- The offset word transmitted for an offset, which is also a valid
26-bit block word carrying the all-zero information field. -/
def cleanWord (o : Offset) : Nat := (offsetWords.lookup o).getD 0

/-- Counterexample input: 52 bits acquiring sync (offset words A then B),
followed by 50 block slots of which the first 4 carry clean offset words
and the remaining 46 carry an offset word with bit 0 flipped: errored but
correctable single-bit bursts. -/
def c3Bits : List Bool :=
  bitsOfWord (cleanWord .A) 26 ++ bitsOfWord (cleanWord .B) 26 ++
    (List.range 50).flatMap (fun i =>
      let o := [Offset.C, .D, .A, .B].getD (i % 4) .A
      bitsOfWord (if i < 4 then cleanWord o else cleanWord o ^^^ 1) 26)

/-- Push a bit sequence through a stream (state evolution only). -/
def pushBits (st : BlockStream) (sync_buffer : SyncPulseBuffer) (bits : List Bool) :
    BlockStream × SyncPulseBuffer :=
  bits.foldl (fun acc bit => acc.1.pushBit acc.2 bit) (st, sync_buffer)

/-- The sync pulse buffer from bit 52 of the C3 counterexample run on. -/
def c3SyncedBuffer : SyncPulseBuffer :=
  { pulses := [{ offset := Offset.invalid, bitcount := -1 },
               { offset := Offset.invalid, bitcount := -1 },
               { offset := Offset.A, bitcount := 26 },
               { offset := Offset.B, bitcount := 52 }] }

/-- Stream state after the first 104 bits of the C3 counterexample run. -/
def c3State1 : BlockStream :=
  { bitcount := 104, num_bits_until_next_block := 26, input_register := 2684354996, expected_offset := Offset.A, is_in_sync := true, block_error_sum50 := { history := [0, 0, 0, 0, 0, 0, 0, 0, 0, 0, 0, 0, 0, 0, 0, 0, 0, 0, 0, 0, 0, 0, 0, 0, 0, 0, 0, 0, 0, 0, 0, 0, 0, 0, 0, 0, 0, 0, 0, 0, 0, 0, 0, 0, 0, 0, 0, 0, 0, 0], pointer := 3 }, current_group := {}, ready_group := { block1 := {}, block2 := { raw := 408, data := 0, offset := Offset.B, is_received := true, had_errors := false }, block3 := { raw := 360, data := 0, offset := Offset.C, is_received := true, had_errors := false }, block4 := { raw := 436, data := 0, offset := Offset.D, is_received := true, had_errors := false }, type_ := {}, has_type := true, has_c_prime := false, no_offsets := false }, has_group_ready := true, num_bits_since_sync_lost := 0 }

/-- Stream state after the first 208 bits of the C3 counterexample run. -/
def c3State2 : BlockStream :=
  { bitcount := 208, num_bits_until_next_block := 26, input_register := 2751463861, expected_offset := Offset.A, is_in_sync := true, block_error_sum50 := { history := [0, 0, 0, 0, 0, 1, 1, 0, 0, 0, 0, 0, 0, 0, 0, 0, 0, 0, 0, 0, 0, 0, 0, 0, 0, 0, 0, 0, 0, 0, 0, 0, 0, 0, 0, 0, 0, 0, 0, 0, 0, 0, 0, 0, 0, 0, 0, 0, 0, 0], pointer := 7 }, current_group := {}, ready_group := { block1 := { raw := 252, data := 0, offset := Offset.A, is_received := true, had_errors := false }, block2 := { raw := 408, data := 0, offset := Offset.B, is_received := true, had_errors := false }, block3 := { raw := 361, data := 0, offset := Offset.C, is_received := true, had_errors := true }, block4 := { raw := 437, data := 0, offset := Offset.D, is_received := true, had_errors := true }, type_ := {}, has_type := true, has_c_prime := false, no_offsets := false }, has_group_ready := true, num_bits_since_sync_lost := 0 }

/-- Stream state after the first 312 bits of the C3 counterexample run. -/
def c3State3 : BlockStream :=
  { bitcount := 312, num_bits_until_next_block := 26, input_register := 2751463861, expected_offset := Offset.A, is_in_sync := true, block_error_sum50 := { history := [0, 0, 0, 0, 0, 1, 1, 1, 1, 1, 1, 0, 0, 0, 0, 0, 0, 0, 0, 0, 0, 0, 0, 0, 0, 0, 0, 0, 0, 0, 0, 0, 0, 0, 0, 0, 0, 0, 0, 0, 0, 0, 0, 0, 0, 0, 0, 0, 0, 0], pointer := 11 }, current_group := {}, ready_group := { block1 := { raw := 253, data := 0, offset := Offset.A, is_received := true, had_errors := true }, block2 := { raw := 409, data := 0, offset := Offset.B, is_received := true, had_errors := true }, block3 := { raw := 361, data := 0, offset := Offset.C, is_received := true, had_errors := true }, block4 := { raw := 437, data := 0, offset := Offset.D, is_received := true, had_errors := true }, type_ := {}, has_type := true, has_c_prime := false, no_offsets := false }, has_group_ready := true, num_bits_since_sync_lost := 0 }

/-- Stream state after the first 416 bits of the C3 counterexample run. -/
def c3State4 : BlockStream :=
  { bitcount := 416, num_bits_until_next_block := 26, input_register := 2751463861, expected_offset := Offset.A, is_in_sync := true, block_error_sum50 := { history := [0, 0, 0, 0, 0, 1, 1, 1, 1, 1, 1, 1, 1, 1, 1, 0, 0, 0, 0, 0, 0, 0, 0, 0, 0, 0, 0, 0, 0, 0, 0, 0, 0, 0, 0, 0, 0, 0, 0, 0, 0, 0, 0, 0, 0, 0, 0, 0, 0, 0], pointer := 15 }, current_group := {}, ready_group := { block1 := { raw := 253, data := 0, offset := Offset.A, is_received := true, had_errors := true }, block2 := { raw := 409, data := 0, offset := Offset.B, is_received := true, had_errors := true }, block3 := { raw := 361, data := 0, offset := Offset.C, is_received := true, had_errors := true }, block4 := { raw := 437, data := 0, offset := Offset.D, is_received := true, had_errors := true }, type_ := {}, has_type := true, has_c_prime := false, no_offsets := false }, has_group_ready := true, num_bits_since_sync_lost := 0 }

/-- Stream state after the first 520 bits of the C3 counterexample run. -/
def c3State5 : BlockStream :=
  { bitcount := 520, num_bits_until_next_block := 26, input_register := 2751463861, expected_offset := Offset.A, is_in_sync := true, block_error_sum50 := { history := [0, 0, 0, 0, 0, 1, 1, 1, 1, 1, 1, 1, 1, 1, 1, 1, 1, 1, 1, 0, 0, 0, 0, 0, 0, 0, 0, 0, 0, 0, 0, 0, 0, 0, 0, 0, 0, 0, 0, 0, 0, 0, 0, 0, 0, 0, 0, 0, 0, 0], pointer := 19 }, current_group := {}, ready_group := { block1 := { raw := 253, data := 0, offset := Offset.A, is_received := true, had_errors := true }, block2 := { raw := 409, data := 0, offset := Offset.B, is_received := true, had_errors := true }, block3 := { raw := 361, data := 0, offset := Offset.C, is_received := true, had_errors := true }, block4 := { raw := 437, data := 0, offset := Offset.D, is_received := true, had_errors := true }, type_ := {}, has_type := true, has_c_prime := false, no_offsets := false }, has_group_ready := true, num_bits_since_sync_lost := 0 }

/-- Stream state after the first 624 bits of the C3 counterexample run. -/
def c3State6 : BlockStream :=
  { bitcount := 624, num_bits_until_next_block := 26, input_register := 2751463861, expected_offset := Offset.A, is_in_sync := true, block_error_sum50 := { history := [0, 0, 0, 0, 0, 1, 1, 1, 1, 1, 1, 1, 1, 1, 1, 1, 1, 1, 1, 1, 1, 1, 1, 0, 0, 0, 0, 0, 0, 0, 0, 0, 0, 0, 0, 0, 0, 0, 0, 0, 0, 0, 0, 0, 0, 0, 0, 0, 0, 0], pointer := 23 }, current_group := {}, ready_group := { block1 := { raw := 253, data := 0, offset := Offset.A, is_received := true, had_errors := true }, block2 := { raw := 409, data := 0, offset := Offset.B, is_received := true, had_errors := true }, block3 := { raw := 361, data := 0, offset := Offset.C, is_received := true, had_errors := true }, block4 := { raw := 437, data := 0, offset := Offset.D, is_received := true, had_errors := true }, type_ := {}, has_type := true, has_c_prime := false, no_offsets := false }, has_group_ready := true, num_bits_since_sync_lost := 0 }

/-- Stream state after the first 728 bits of the C3 counterexample run. -/
def c3State7 : BlockStream :=
  { bitcount := 728, num_bits_until_next_block := 26, input_register := 2751463861, expected_offset := Offset.A, is_in_sync := true, block_error_sum50 := { history := [0, 0, 0, 0, 0, 1, 1, 1, 1, 1, 1, 1, 1, 1, 1, 1, 1, 1, 1, 1, 1, 1, 1, 1, 1, 1, 1, 0, 0, 0, 0, 0, 0, 0, 0, 0, 0, 0, 0, 0, 0, 0, 0, 0, 0, 0, 0, 0, 0, 0], pointer := 27 }, current_group := {}, ready_group := { block1 := { raw := 253, data := 0, offset := Offset.A, is_received := true, had_errors := true }, block2 := { raw := 409, data := 0, offset := Offset.B, is_received := true, had_errors := true }, block3 := { raw := 361, data := 0, offset := Offset.C, is_received := true, had_errors := true }, block4 := { raw := 437, data := 0, offset := Offset.D, is_received := true, had_errors := true }, type_ := {}, has_type := true, has_c_prime := false, no_offsets := false }, has_group_ready := true, num_bits_since_sync_lost := 0 }

/-- Stream state after the first 832 bits of the C3 counterexample run. -/
def c3State8 : BlockStream :=
  { bitcount := 832, num_bits_until_next_block := 26, input_register := 2751463861, expected_offset := Offset.A, is_in_sync := true, block_error_sum50 := { history := [0, 0, 0, 0, 0, 1, 1, 1, 1, 1, 1, 1, 1, 1, 1, 1, 1, 1, 1, 1, 1, 1, 1, 1, 1, 1, 1, 1, 1, 1, 1, 0, 0, 0, 0, 0, 0, 0, 0, 0, 0, 0, 0, 0, 0, 0, 0, 0, 0, 0], pointer := 31 }, current_group := {}, ready_group := { block1 := { raw := 253, data := 0, offset := Offset.A, is_received := true, had_errors := true }, block2 := { raw := 409, data := 0, offset := Offset.B, is_received := true, had_errors := true }, block3 := { raw := 361, data := 0, offset := Offset.C, is_received := true, had_errors := true }, block4 := { raw := 437, data := 0, offset := Offset.D, is_received := true, had_errors := true }, type_ := {}, has_type := true, has_c_prime := false, no_offsets := false }, has_group_ready := true, num_bits_since_sync_lost := 0 }

/-- Stream state after the first 936 bits of the C3 counterexample run. -/
def c3State9 : BlockStream :=
  { bitcount := 936, num_bits_until_next_block := 26, input_register := 2751463861, expected_offset := Offset.A, is_in_sync := true, block_error_sum50 := { history := [0, 0, 0, 0, 0, 1, 1, 1, 1, 1, 1, 1, 1, 1, 1, 1, 1, 1, 1, 1, 1, 1, 1, 1, 1, 1, 1, 1, 1, 1, 1, 1, 1, 1, 1, 0, 0, 0, 0, 0, 0, 0, 0, 0, 0, 0, 0, 0, 0, 0], pointer := 35 }, current_group := {}, ready_group := { block1 := { raw := 253, data := 0, offset := Offset.A, is_received := true, had_errors := true }, block2 := { raw := 409, data := 0, offset := Offset.B, is_received := true, had_errors := true }, block3 := { raw := 361, data := 0, offset := Offset.C, is_received := true, had_errors := true }, block4 := { raw := 437, data := 0, offset := Offset.D, is_received := true, had_errors := true }, type_ := {}, has_type := true, has_c_prime := false, no_offsets := false }, has_group_ready := true, num_bits_since_sync_lost := 0 }

/-- Stream state after the first 1040 bits of the C3 counterexample run. -/
def c3State10 : BlockStream :=
  { bitcount := 1040, num_bits_until_next_block := 26, input_register := 2751463861, expected_offset := Offset.A, is_in_sync := true, block_error_sum50 := { history := [0, 0, 0, 0, 0, 1, 1, 1, 1, 1, 1, 1, 1, 1, 1, 1, 1, 1, 1, 1, 1, 1, 1, 1, 1, 1, 1, 1, 1, 1, 1, 1, 1, 1, 1, 1, 1, 1, 1, 0, 0, 0, 0, 0, 0, 0, 0, 0, 0, 0], pointer := 39 }, current_group := {}, ready_group := { block1 := { raw := 253, data := 0, offset := Offset.A, is_received := true, had_errors := true }, block2 := { raw := 409, data := 0, offset := Offset.B, is_received := true, had_errors := true }, block3 := { raw := 361, data := 0, offset := Offset.C, is_received := true, had_errors := true }, block4 := { raw := 437, data := 0, offset := Offset.D, is_received := true, had_errors := true }, type_ := {}, has_type := true, has_c_prime := false, no_offsets := false }, has_group_ready := true, num_bits_since_sync_lost := 0 }

/-- Stream state after the first 1144 bits of the C3 counterexample run. -/
def c3State11 : BlockStream :=
  { bitcount := 1144, num_bits_until_next_block := 26, input_register := 2751463861, expected_offset := Offset.A, is_in_sync := true, block_error_sum50 := { history := [0, 0, 0, 0, 0, 1, 1, 1, 1, 1, 1, 1, 1, 1, 1, 1, 1, 1, 1, 1, 1, 1, 1, 1, 1, 1, 1, 1, 1, 1, 1, 1, 1, 1, 1, 1, 1, 1, 1, 1, 1, 1, 1, 0, 0, 0, 0, 0, 0, 0], pointer := 43 }, current_group := {}, ready_group := { block1 := { raw := 253, data := 0, offset := Offset.A, is_received := true, had_errors := true }, block2 := { raw := 409, data := 0, offset := Offset.B, is_received := true, had_errors := true }, block3 := { raw := 361, data := 0, offset := Offset.C, is_received := true, had_errors := true }, block4 := { raw := 437, data := 0, offset := Offset.D, is_received := true, had_errors := true }, type_ := {}, has_type := true, has_c_prime := false, no_offsets := false }, has_group_ready := true, num_bits_since_sync_lost := 0 }

/-- Stream state after the first 1248 bits of the C3 counterexample run. -/
def c3State12 : BlockStream :=
  { bitcount := 1248, num_bits_until_next_block := 26, input_register := 2751463861, expected_offset := Offset.A, is_in_sync := true, block_error_sum50 := { history := [0, 0, 0, 0, 0, 1, 1, 1, 1, 1, 1, 1, 1, 1, 1, 1, 1, 1, 1, 1, 1, 1, 1, 1, 1, 1, 1, 1, 1, 1, 1, 1, 1, 1, 1, 1, 1, 1, 1, 1, 1, 1, 1, 1, 1, 1, 1, 0, 0, 0], pointer := 47 }, current_group := {}, ready_group := { block1 := { raw := 253, data := 0, offset := Offset.A, is_received := true, had_errors := true }, block2 := { raw := 409, data := 0, offset := Offset.B, is_received := true, had_errors := true }, block3 := { raw := 361, data := 0, offset := Offset.C, is_received := true, had_errors := true }, block4 := { raw := 437, data := 0, offset := Offset.D, is_received := true, had_errors := true }, type_ := {}, has_type := true, has_c_prime := false, no_offsets := false }, has_group_ready := true, num_bits_since_sync_lost := 0 }

/-- Stream state after the first 1352 bits of the C3 counterexample run. -/
def c3State13 : BlockStream :=
  { bitcount := 1352, num_bits_until_next_block := 26, input_register := 2751463861, expected_offset := Offset.A, is_in_sync := true, block_error_sum50 := { history := [1, 0, 0, 0, 0, 1, 1, 1, 1, 1, 1, 1, 1, 1, 1, 1, 1, 1, 1, 1, 1, 1, 1, 1, 1, 1, 1, 1, 1, 1, 1, 1, 1, 1, 1, 1, 1, 1, 1, 1, 1, 1, 1, 1, 1, 1, 1, 1, 1, 1], pointer := 1 }, current_group := {}, ready_group := { block1 := { raw := 253, data := 0, offset := Offset.A, is_received := true, had_errors := true }, block2 := { raw := 409, data := 0, offset := Offset.B, is_received := true, had_errors := true }, block3 := { raw := 361, data := 0, offset := Offset.C, is_received := true, had_errors := true }, block4 := { raw := 437, data := 0, offset := Offset.D, is_received := true, had_errors := true }, type_ := {}, has_type := true, has_c_prime := false, no_offsets := false }, has_group_ready := true, num_bits_since_sync_lost := 0 }

/-- The single-bit and two-adjacent-bit burst patterns enumerated by
makeErrorLookupTable. -/
def burstPatterns : List Nat :=
  [0b1, 0b11].flatMap (fun error_bits =>
    (List.range kBlockLength).map (fun shift => (error_bits <<< shift) &&& kBlockBitmask))

/-! ## Theorems -/

theorem bit_eq_toNat_testBit (v k : Nat) : (v >>> k) &&& 1 = (v.testBit k).toNat := by
  rw [Nat.and_one_is_mod, Nat.shiftRight_eq_div_pow]
  exact (Nat.toNat_testBit v k).symm

theorem mul_bit_xor (m x y k : Nat) :
    m * (((x ^^^ y) >>> k) &&& 1) =
      (m * ((x >>> k) &&& 1)) ^^^ (m * ((y >>> k) &&& 1)) := by
  rw [bit_eq_toNat_testBit, bit_eq_toNat_testBit, bit_eq_toNat_testBit, Nat.testBit_xor]
  cases hx : x.testBit k <;> cases hy : y.testBit k <;>
    simp [Nat.xor_self, Nat.zero_xor, Nat.xor_zero]

theorem foldl_xor_split (l : List Nat) (f g : Nat → Nat) (a b : Nat) :
    l.foldl (fun r k => r ^^^ (f k ^^^ g k)) (a ^^^ b) =
      (l.foldl (fun r k => r ^^^ f k) a) ^^^ (l.foldl (fun r k => r ^^^ g k) b) := by
  induction l generalizing a b with
  | nil => rfl
  | cons k l ih =>
    simp only [List.foldl_cons]
    rw [show (a ^^^ b) ^^^ (f k ^^^ g k) = (a ^^^ f k) ^^^ (b ^^^ g k) by
      rw [Nat.xor_assoc, Nat.xor_assoc, ← Nat.xor_assoc b (f k) (g k),
          Nat.xor_comm b (f k), Nat.xor_assoc (f k) b (g k)]]
    exact ih (a ^^^ f k) (b ^^^ g k)

theorem calculateSyndrome_xor (x y : Nat) :
    calculateSyndrome (x ^^^ y) = calculateSyndrome x ^^^ calculateSyndrome y := by
  unfold calculateSyndrome
  have hext := List.foldl_ext
    (fun r k => r ^^^ (parityCheckMatrix.getD (26 - 1 - k) 0) * (((x ^^^ y) >>> k) &&& 0b1))
    (fun r k => r ^^^ ((parityCheckMatrix.getD (26 - 1 - k) 0) * ((x >>> k) &&& 0b1) ^^^
                       (parityCheckMatrix.getD (26 - 1 - k) 0) * ((y >>> k) &&& 0b1)))
    (0 : Nat) (l := List.range 26)
    (fun r k _ => by simp only; rw [mul_bit_xor])
  rw [hext]
  exact foldl_xor_split (List.range 26) _ _ 0 0

theorem getD_parityCheckMatrix_lt (k : Nat) : parityCheckMatrix.getD k 0 < 1024 := by
  by_cases h : k < parityCheckMatrix.length
  · rw [List.getD_eq_getElem _ _ h]
    have hall : ∀ x ∈ parityCheckMatrix, x < 1024 := by decide
    exact hall _ (List.getElem_mem h)
  · rw [List.getD_eq_default _ _ (Nat.le_of_not_lt h)]
    decide

theorem calculateSyndrome_lt (v : Nat) : calculateSyndrome v < 1024 := by
  unfold calculateSyndrome
  generalize (List.range 26) = l
  suffices h : ∀ (l : List Nat) (a : Nat), a < 1024 →
      l.foldl (fun result k =>
        result ^^^ (parityCheckMatrix.getD (26 - 1 - k) 0) * ((v >>> k) &&& 0b1)) a < 1024 by
    exact h l 0 (by decide)
  intro l
  induction l with
  | nil => intro a ha; exact ha
  | cons k t ih =>
    intro a ha
    simp only [List.foldl_cons]
    apply ih
    have hm : parityCheckMatrix.getD (26 - 1 - k) 0 < 1024 := getD_parityCheckMatrix_lt _
    have hb : (v >>> k) &&& 0b1 ≤ 1 := Nat.and_le_right
    have hmul : (parityCheckMatrix.getD (26 - 1 - k) 0) * ((v >>> k) &&& 0b1) < 1024 := by
      calc (parityCheckMatrix.getD (26 - 1 - k) 0) * ((v >>> k) &&& 0b1)
          ≤ (parityCheckMatrix.getD (26 - 1 - k) 0) * 1 := Nat.mul_le_mul_left _ hb
        _ = parityCheckMatrix.getD (26 - 1 - k) 0 := Nat.mul_one _
        _ < 1024 := hm
    have h1024 : (1024 : Nat) = 2 ^ 10 := by decide
    rw [h1024] at ha hmul ⊢
    exact Nat.xor_lt_two_pow ha hmul

theorem calculateSyndrome_mod (v : Nat) : calculateSyndrome v % 65536 = calculateSyndrome v :=
  Nat.mod_eq_of_lt (Nat.lt_trans (calculateSyndrome_lt v) (by decide))

set_option maxRecDepth 10000 in
set_option maxHeartbeats 4000000 in
theorem errorLookupTable_complete :
    ∀ p ∈ offsetWords, ∀ e ∈ burstPatterns,
      errorLookupTable.lookup (calculateSyndrome (e ^^^ p.2), p.1) = some e := by decide

/-- Claim C1: for every 26-bit codeword c (zero syndrome), every real
offset O with offset word w, and every single-bit or two-adjacent-bit
error vector e, correctBurstErrors on the corrupted word (c xor w) xor e
with expected offset O succeeds and its corrected bits shifted right by
the 10-bit checkword length recover the valid word's information field. -/
theorem c1_burst_correction (c w e : Nat) (o : Offset)
    (hc26 : c < 2 ^ 26) (hcode : calculateSyndrome c = 0)
    (how : (o, w) ∈ offsetWords) (he : e ∈ burstPatterns) :
    (correctBurstErrors { raw := (c ^^^ w) ^^^ e } o).succeeded = true ∧
    (correctBurstErrors { raw := (c ^^^ w) ^^^ e } o).corrected_bits >>> kCheckwordLength =
      (c ^^^ w) >>> kCheckwordLength := by
  have hsyn : calculateSyndrome ((c ^^^ w) ^^^ e) = calculateSyndrome (e ^^^ w) := by
    rw [calculateSyndrome_xor, calculateSyndrome_xor, hcode, Nat.zero_xor,
        calculateSyndrome_xor, Nat.xor_comm]
  have hlook : errorLookupTable.lookup (calculateSyndrome (e ^^^ w), o) = some e :=
    errorLookupTable_complete (o, w) how e he
  unfold correctBurstErrors
  simp only [calculateSyndrome_mod, hsyn, hlook]
  exact ⟨trivial, by rw [Nat.xor_assoc, Nat.xor_self, Nat.xor_zero]⟩

/-- Witness: the all-zero codeword with offset A and a single-bit error
in position 0 is corrected. -/
theorem c1_burst_correction_witness :
    (correctBurstErrors { raw := (0 ^^^ 0b0011111100) ^^^ 1 } Offset.A).succeeded = true ∧
    (correctBurstErrors { raw := (0 ^^^ 0b0011111100) ^^^ 1 } Offset.A).corrected_bits >>>
        kCheckwordLength = (0 ^^^ 0b0011111100) >>> kCheckwordLength :=
  c1_burst_correction 0 0b0011111100 1 Offset.A (by decide) (by decide) (by decide) (by decide)

set_option maxRecDepth 10000 in
/-- Claim C2: calculateSyndrome maps each offset word to exactly the
syndrome the spec lists, getOffsetForSyndrome maps each of those five
values back to its offset, and every other 10-bit value to invalid. -/
theorem c2_offset_syndromes :
    (∀ p ∈ offsetWords, calculateSyndrome p.2 = specSyndrome p.1 ∧
        getOffsetForSyndrome (specSyndrome p.1) = p.1) ∧
    (∀ s, s < 1024 → (∀ p ∈ offsetWords, s ≠ specSyndrome p.1) →
        getOffsetForSyndrome s = Offset.invalid) := by decide

/-- Witness for C2 at offset A and at the syndrome value 0. -/
theorem c2_offset_syndromes_witness :
    (calculateSyndrome 0b0011111100 = specSyndrome Offset.A ∧
      getOffsetForSyndrome (specSyndrome Offset.A) = Offset.A) ∧
    getOffsetForSyndrome 0 = Offset.invalid :=
  ⟨c2_offset_syndromes.1 (Offset.A, 0b0011111100) (by decide),
   c2_offset_syndromes.2 0 (by decide) (by decide)⟩

/-- Claim C4 as stated is false: in this buffer state the newest entry is
78 bits before an older pulse, so d = -78 is a multiple of 26 with
d / 26 = -3 and (0 + (-3)) mod 4 = 1 = blockNumber(B) under the
mathematical (Euclidean) reading of the claim, yet isSequenceFound is
false because C++ truncated remainder gives (-3) % 4 = -3. -/
theorem c4_counterexample :
    SyncPulseBuffer.isSequenceFound c4CounterBuffer = false ∧
      specSequenceFound c4CounterBuffer := by
  constructor
  · decide
  · exact ⟨0, by decide, by decide, by decide, by decide, by decide⟩

/-- Claim C4 amended: restricted to buffer states whose older entries are
no newer than the newest entry (all states a single stream produces),
isSequenceFound returns true exactly when some older entry p satisfies
the four conditions of the claim. -/
theorem c4_amended (buf : SyncPulseBuffer)
    (hmono : ∀ i, i < 3 →
      (buf.pulses.getD i {}).bitcount ≤ (buf.pulses.getLastD {}).bitcount) :
    buf.isSequenceFound = true ↔ specSequenceFound buf := by
  unfold SyncPulseBuffer.isSequenceFound specSequenceFound
  rw [List.any_eq_true]
  constructor
  · rintro ⟨i, hmem, hcond⟩
    have hi3 : i < 3 := List.mem_range.mp hmem
    simp only [Bool.and_eq_true, decide_eq_true_eq] at hcond
    obtain ⟨⟨⟨h1, h2⟩, h3⟩, h4⟩ := hcond
    have hd : (0 : Int) ≤
        (buf.pulses.getLastD {}).bitcount - (buf.pulses.getD i {}).bitcount := by
      have := hmono i hi3; omega
    have htm := Int.tmod_eq_emod hd (by decide : (0 : Int) ≤ 26)
    have htd := Int.tdiv_eq_ediv hd (by decide : (0 : Int) ≤ 26)
    rw [htm] at h1
    rw [htd] at h2 h4
    rw [Int.tmod_eq_emod (by omega) (by decide : (0 : Int) ≤ 4)] at h4
    exact ⟨i, hi3, Int.dvd_of_emod_eq_zero h1, h2, h3, h4⟩
  · rintro ⟨i, hi3, h1, h2, h3, h4⟩
    refine ⟨i, List.mem_range.mpr hi3, ?_⟩
    simp only [Bool.and_eq_true, decide_eq_true_eq]
    have hd : (0 : Int) ≤
        (buf.pulses.getLastD {}).bitcount - (buf.pulses.getD i {}).bitcount := by
      have := hmono i hi3; omega
    have htm := Int.tmod_eq_emod hd (by decide : (0 : Int) ≤ 26)
    have htd := Int.tdiv_eq_ediv hd (by decide : (0 : Int) ≤ 26)
    refine ⟨⟨⟨?_, ?_⟩, h3⟩, ?_⟩
    · rw [htm]; exact Int.emod_eq_zero_of_dvd h1
    · rw [htd]; exact h2
    · rw [htd, Int.tmod_eq_emod (by omega) (by decide : (0 : Int) ≤ 4)]
      exact h4

/-- Witness for the amended C4 on a buffer with sightings A at bit 26 and
B at bit 52. -/
theorem c4_amended_witness :
    SyncPulseBuffer.isSequenceFound c4WitnessBuffer = true ↔
      specSequenceFound c4WitnessBuffer :=
  c4_amended c4WitnessBuffer (by decide)

/-- Claim C6 as stated is false: in a group whose block 2 carries a
version-A type, has_type is true before a C-prime block is installed and
false afterwards, so it is not left unchanged for version-A groups. -/
theorem c6_counterexample :
    c6GroupBefore.has BLOCK2 = true ∧
    c6GroupBefore.type_.version = GroupVersion.A ∧
    c6GroupBefore.has_type = true ∧
    (c6GroupBefore.setBlock BLOCK3 c6CprimeBlock).has_type = false := by decide

/-- Claim C6 amended: installing a C-prime block after block 2 assigns
has_type the truth value of the type version being B, so version-B
groups get has_type true and version-A groups get has_type false. -/
theorem c6_amended (g : Group) (b : Block) (h2 : g.has BLOCK2 = true)
    (ho : b.offset = Offset.Cprime) :
    (g.setBlock BLOCK3 b).has_type = decide (g.type_.version = GroupVersion.B) := by
  have h2b : g.block2.is_received = true := h2
  unfold Group.setBlock Group.setBlockAt Group.has Group.blockAt
  simp [BLOCK1, BLOCK2, BLOCK3, BLOCK4, ho, h2b]

/-- Witness for the amended C6 on the version-A example group. -/
theorem c6_amended_witness :
    (c6GroupBefore.setBlock BLOCK3 c6CprimeBlock).has_type =
      decide (c6GroupBefore.type_.version = GroupVersion.B) :=
  c6_amended c6GroupBefore c6CprimeBlock (by decide) (by decide)

/-- Claim C7: hasPI holds iff block 1 is received, or block 3 is received
with offset C-prime. -/
theorem c7_hasPI_iff (g : Group) :
    g.hasPI = true ↔
      g.block1.is_received = true ∨
        (g.block3.is_received = true ∧ g.block3.offset = Offset.Cprime) := by
  unfold Group.hasPI Group.blockAt BLOCK1 BLOCK3
  simp

/-- Claim C9: when hasPI is false getPI returns 0x0000; otherwise it
returns block 1 data if block 1 is received, else block 3 data. -/
theorem c9_getPI (g : Group) :
    (g.hasPI = false → g.getPI = 0) ∧
    (g.hasPI = true →
      g.getPI = if g.block1.is_received then g.block1.data else g.block3.data) := by
  unfold Group.hasPI Group.getPI Group.blockAt BLOCK1 BLOCK3
  by_cases hb1 : g.block1.is_received <;>
    by_cases hb3 : g.block3.is_received <;>
      by_cases ho : g.block3.offset = Offset.Cprime <;>
        simp_all

/-- Witness for C9 on the empty group, which has no PI. -/
theorem c9_getPI_witness : Group.getPI {} = 0 :=
  (c9_getPI {}).1 (by decide)

/-- A group whose hasPI holds never satisfies isEmpty: the PI carrier
block is itself received. -/
theorem hasPI_not_isEmpty (g : Group) (h : g.hasPI = true) : g.isEmpty = false := by
  unfold Group.hasPI Group.blockAt BLOCK1 BLOCK3 at h
  unfold Group.isEmpty Group.has Group.blockAt BLOCK1 BLOCK2 BLOCK3 BLOCK4
  simp only [Bool.or_eq_true, Bool.and_eq_true, decide_eq_true_eq] at h
  rcases h with h | ⟨h, _⟩ <;> simp [h]

/-- Claim C10 as stated is false: after a group with PI, a following
empty group without PI is not decoded (produces no output), although the
claim says a group lacking PI is still decoded when the previous group
had PI. -/
theorem c10_counterexample :
    c10GroupWithPI.hasPI = true ∧
    Group.hasPI {} = false ∧
    (c10Station.processGroups [c10GroupWithPI, {}]).2 = [some c10GroupWithPI, none] := by
  decide

/-- Claim C10 amended: with a PI policy, a group with PI is always
decoded; a non-empty group without PI is decoded exactly when the
previous group had PI; an empty group never produces output but still
consumes the PI-miss allowance; two consecutive groups without PI leave
the second unprocessed with no state change. -/
theorem c10_amended (st : Station) (g : Group) (h : st.has_pi = true) :
    (g.hasPI = true →
        st.updateAndPrint g = ({ st with last_group_had_pi := true }, some g)) ∧
    (g.hasPI = false → st.last_group_had_pi = true → g.isEmpty = false →
        st.updateAndPrint g = ({ st with last_group_had_pi := false }, some g)) ∧
    (g.hasPI = false → st.last_group_had_pi = true → g.isEmpty = true →
        st.updateAndPrint g = ({ st with last_group_had_pi := false }, none)) ∧
    (g.hasPI = false → st.last_group_had_pi = false →
        st.updateAndPrint g = (st, none)) := by
  unfold Station.updateAndPrint
  refine ⟨?_, ?_, ?_, ?_⟩
  · intro hpi
    simp [h, hpi, hasPI_not_isEmpty g hpi]
  · intro hpi hlast hempty
    simp [h, hpi, hlast, hempty]
  · intro hpi hlast hempty
    simp [h, hpi, hlast, hempty]
  · intro hpi hlast
    simp [h, hpi, hlast]

/-- Witness for the amended C10: a PI group is decoded and sets the
allowance flag. -/
theorem c10_amended_witness :
    c10Station.updateAndPrint c10GroupWithPI =
      ({ c10Station with last_group_had_pi := true }, some c10GroupWithPI) :=
  (c10_amended c10Station c10GroupWithPI rfl).1 (by decide)

/-- Claim C8: printHex writes the four blocks as four-nybble uppercase
zero-padded hex words separated by single spaces, with four dashes for a
block that was not received; scenario S6 serializes as stated. -/
theorem c8_printHex :
    (∀ g : Group, g.printHex =
      (if g.block1.is_received then getHex4 g.block1.data else "----") ++ " " ++
      (if g.block2.is_received then getHex4 g.block2.data else "----") ++ " " ++
      (if g.block3.is_received then getHex4 g.block3.data else "----") ++ " " ++
      (if g.block4.is_received then getHex4 g.block4.data else "----")) ∧
    (∀ n : Nat, (getHex4 n).length = 4) ∧
    c8ExampleGroup.printHex = "E242 0000 ---- 2020" := by
  refine ⟨?_, ?_, by decide⟩
  · intro g
    unfold Group.printHex Group.blockAt BLOCK1 BLOCK2 BLOCK3 BLOCK4
    simp only [List.foldl_cons, List.foldl_nil]
    norm_num
  · intro n
    unfold getHex4
    rfl

set_option maxRecDepth 100000 in
/-- Claim C5 fails on the code: the first run of c5Bits through a fresh
BlockStream emits no group, but a second, freshly constructed BlockStream
fed the identical bits emits one group, because the function-static
SyncPulseBuffer in acquireSync still holds the first stream's pulse and
matches the same pulse again at distance zero. -/
theorem c5_static_buffer_divergence :
    (runBits {} {} c5Bits).2.2 = ([] : List Group) ∧
    (runBits {} (runBits {} {} c5Bits).2.1 c5Bits).2.2.length = 1 ∧
    (runBits {} (runBits {} {} c5Bits).2.1 c5Bits).2.2 ≠ (runBits {} {} c5Bits).2.2 := by
  have h1 : (runBits {} {} c5Bits).2.2 = ([] : List Group) := by decide
  have h2 : (runBits {} (runBits {} {} c5Bits).2.1 c5Bits).2.2.length = 1 := by decide
  refine ⟨h1, h2, ?_⟩
  intro heq
  rw [heq, h1] at h2
  simp at h2

theorem finishBlock_is_in_sync (st : BlockStream) (b : Block) :
    (st.finishBlock b).is_in_sync = st.is_in_sync := by
  simp only [BlockStream.finishBlock, BlockStream.handleNewlyReceivedGroup]
  split_ifs <;> rfl

theorem finishBlock_sum (st : BlockStream) (b : Block) :
    (st.finishBlock b).block_error_sum50 = st.block_error_sum50 := by
  simp only [BlockStream.finishBlock, BlockStream.handleNewlyReceivedGroup]
  split_ifs <;> rfl

theorem getSum_clear (s : RunningSum50) : (RunningSum50.clear s).getSum = 0 := rfl

theorem correctBurstErrors_raw_eq (b c : Block) (o : Offset) (h : b.raw = c.raw) :
    correctBurstErrors b o = correctBurstErrors c o := by
  unfold correctBurstErrors
  rw [h]

set_option maxRecDepth 8000 in
/-- Claim C3 amended: an in-sync stream leaves sync at a block slot
exactly when the slot is errored, burst correction against the expected
offset fails, and the last-50 error-flag sum including this slot exceeds
45; in that case block_error_sum50 is cleared. In particular a window
summing to 45 never drops sync, and 46 errored-but-correctable blocks do
not drop sync either. -/
theorem c3_amended (st : BlockStream) (buf : SyncPulseBuffer) (h : st.is_in_sync = true) :
    ((st.findBlockInInputRegister buf).1.is_in_sync = false ↔
      (st.slotErrored ∧ st.slotCorrectable = false ∧
        (st.block_error_sum50.push 1).getSum > 45)) ∧
    ((st.findBlockInInputRegister buf).1.is_in_sync = false →
      (st.findBlockInInputRegister buf).1.block_error_sum50.getSum = 0) := by
  simp only [BlockStream.findBlockInInputRegister, BlockStream.acquireSync, h,
    eq_self_iff_true, if_true, BlockStream.processBlockInSync, BlockStream.slotErrored,
    BlockStream.slotCorrectable, BlockStream.expectedAfterSwitch, BlockStream.observedOffset,
    BlockStream.candidateRaw]
  set O := getOffsetForSyndrome (calculateSyndrome (st.input_register &&& kBlockBitmask) % 65536)
    with hO
  set E := (if st.expected_offset = Offset.C ∧ O = Offset.Cprime then Offset.Cprime
            else st.expected_offset) with hE
  by_cases herr : O ≠ E
  · have hd : decide (O ≠ E) = true := by simp [herr]
    simp only [hd, eq_self_iff_true, if_true]
    rw [correctBurstErrors_raw_eq
      { raw := st.input_register &&& kBlockBitmask,
        data := (st.input_register &&& kBlockBitmask) >>> kCheckwordLength,
        offset := getOffsetForSyndrome (calculateSyndrome (st.input_register &&& kBlockBitmask) % 65536),
        is_received := false, had_errors := true }
      { raw := st.input_register &&& kBlockBitmask, offset := O } E rfl]
    by_cases hsucc :
        (correctBurstErrors { raw := st.input_register &&& kBlockBitmask, offset := O }
          E).succeeded = true
    · simp only [hsucc, eq_self_iff_true, if_true, finishBlock_is_in_sync, h]
      simp
    · simp only [hsucc, if_false, finishBlock_is_in_sync, finishBlock_sum]
      by_cases hsum : (st.block_error_sum50.push 1).getSum > 45
      · simp only [BlockStream.handleUncorrectableError, hsum, and_true, eq_self_iff_true,
          if_true, true_and]
        simp [finishBlock_is_in_sync, finishBlock_sum, getSum_clear, herr, hsucc, hsum]
      · simp only [BlockStream.handleUncorrectableError, hsum, and_false, if_false, h]
        simp [finishBlock_is_in_sync, finishBlock_sum, hsum]
  · have hd : decide (O ≠ E) = false := by simp [herr]
    simp only [hd, Bool.false_eq_true, if_false, finishBlock_is_in_sync, finishBlock_sum, h]
    simp [herr]

/-- Witness for the amended C3 on an in-sync state holding a clean
offset-A word. -/
theorem c3_amended_witness :
    ((c3WitnessState.findBlockInInputRegister {}).1.is_in_sync = false ↔
      (c3WitnessState.slotErrored ∧ c3WitnessState.slotCorrectable = false ∧
        (c3WitnessState.block_error_sum50.push 1).getSum > 45)) ∧
    ((c3WitnessState.findBlockInInputRegister {}).1.is_in_sync = false →
      (c3WitnessState.findBlockInInputRegister {}).1.block_error_sum50.getSum = 0) :=
  c3_amended c3WitnessState {} rfl

theorem pushBits_append_chain {s : BlockStream} {b : SyncPulseBuffer}
    {s2 : BlockStream} {b2 : SyncPulseBuffer} {r : BlockStream × SyncPulseBuffer}
    {xs ys : List Bool}
    (h1 : pushBits s b xs = (s2, b2)) (h2 : pushBits s2 b2 ys = r) :
    pushBits s b (xs ++ ys) = r := by
  unfold pushBits at h1 h2 ⊢
  rw [List.foldl_append, h1]
  exact h2

set_option maxRecDepth 100000 in
/-- Claim C3 as stated is false: this reachable run acquires sync at bit
52 and then ingests 50 block slots of which 46 are errored (the window
sum is 46), every error being a correctable single-bit burst, and the
stream is still in sync at the end instead of out-of-sync. -/
theorem c3_counterexample :
    (pushBits {} {} (c3Bits.take 52)).1.is_in_sync = true ∧
    (pushBits {} {} c3Bits).1.is_in_sync = true ∧
    (pushBits {} {} c3Bits).1.block_error_sum50.getSum = 46 := by
  have h0 : pushBits {} {} (c3Bits.take 104) = (c3State1, c3SyncedBuffer) := by decide
  have h1 : pushBits c3State1 c3SyncedBuffer ((c3Bits.drop 104).take 104) =
      (c3State2, c3SyncedBuffer) := by decide
  have h2 : pushBits c3State2 c3SyncedBuffer ((c3Bits.drop 208).take 104) =
      (c3State3, c3SyncedBuffer) := by decide
  have h3 : pushBits c3State3 c3SyncedBuffer ((c3Bits.drop 312).take 104) =
      (c3State4, c3SyncedBuffer) := by decide
  have h4 : pushBits c3State4 c3SyncedBuffer ((c3Bits.drop 416).take 104) =
      (c3State5, c3SyncedBuffer) := by decide
  have h5 : pushBits c3State5 c3SyncedBuffer ((c3Bits.drop 520).take 104) =
      (c3State6, c3SyncedBuffer) := by decide
  have h6 : pushBits c3State6 c3SyncedBuffer ((c3Bits.drop 624).take 104) =
      (c3State7, c3SyncedBuffer) := by decide
  have h7 : pushBits c3State7 c3SyncedBuffer ((c3Bits.drop 728).take 104) =
      (c3State8, c3SyncedBuffer) := by decide
  have h8 : pushBits c3State8 c3SyncedBuffer ((c3Bits.drop 832).take 104) =
      (c3State9, c3SyncedBuffer) := by decide
  have h9 : pushBits c3State9 c3SyncedBuffer ((c3Bits.drop 936).take 104) =
      (c3State10, c3SyncedBuffer) := by decide
  have h10 : pushBits c3State10 c3SyncedBuffer ((c3Bits.drop 1040).take 104) =
      (c3State11, c3SyncedBuffer) := by decide
  have h11 : pushBits c3State11 c3SyncedBuffer ((c3Bits.drop 1144).take 104) =
      (c3State12, c3SyncedBuffer) := by decide
  have t12 : pushBits c3State12 c3SyncedBuffer (c3Bits.drop 1248) =
      (c3State13, c3SyncedBuffer) := by decide
  have t11 : pushBits c3State11 c3SyncedBuffer (c3Bits.drop 1144) =
      (c3State13, c3SyncedBuffer) := by
    rw [← List.take_append_drop 104 (c3Bits.drop 1144), List.drop_drop]
    exact pushBits_append_chain h11 t12
  have t10 : pushBits c3State10 c3SyncedBuffer (c3Bits.drop 1040) =
      (c3State13, c3SyncedBuffer) := by
    rw [← List.take_append_drop 104 (c3Bits.drop 1040), List.drop_drop]
    exact pushBits_append_chain h10 t11
  have t9 : pushBits c3State9 c3SyncedBuffer (c3Bits.drop 936) =
      (c3State13, c3SyncedBuffer) := by
    rw [← List.take_append_drop 104 (c3Bits.drop 936), List.drop_drop]
    exact pushBits_append_chain h9 t10
  have t8 : pushBits c3State8 c3SyncedBuffer (c3Bits.drop 832) =
      (c3State13, c3SyncedBuffer) := by
    rw [← List.take_append_drop 104 (c3Bits.drop 832), List.drop_drop]
    exact pushBits_append_chain h8 t9
  have t7 : pushBits c3State7 c3SyncedBuffer (c3Bits.drop 728) =
      (c3State13, c3SyncedBuffer) := by
    rw [← List.take_append_drop 104 (c3Bits.drop 728), List.drop_drop]
    exact pushBits_append_chain h7 t8
  have t6 : pushBits c3State6 c3SyncedBuffer (c3Bits.drop 624) =
      (c3State13, c3SyncedBuffer) := by
    rw [← List.take_append_drop 104 (c3Bits.drop 624), List.drop_drop]
    exact pushBits_append_chain h6 t7
  have t5 : pushBits c3State5 c3SyncedBuffer (c3Bits.drop 520) =
      (c3State13, c3SyncedBuffer) := by
    rw [← List.take_append_drop 104 (c3Bits.drop 520), List.drop_drop]
    exact pushBits_append_chain h5 t6
  have t4 : pushBits c3State4 c3SyncedBuffer (c3Bits.drop 416) =
      (c3State13, c3SyncedBuffer) := by
    rw [← List.take_append_drop 104 (c3Bits.drop 416), List.drop_drop]
    exact pushBits_append_chain h4 t5
  have t3 : pushBits c3State3 c3SyncedBuffer (c3Bits.drop 312) =
      (c3State13, c3SyncedBuffer) := by
    rw [← List.take_append_drop 104 (c3Bits.drop 312), List.drop_drop]
    exact pushBits_append_chain h3 t4
  have t2 : pushBits c3State2 c3SyncedBuffer (c3Bits.drop 208) =
      (c3State13, c3SyncedBuffer) := by
    rw [← List.take_append_drop 104 (c3Bits.drop 208), List.drop_drop]
    exact pushBits_append_chain h2 t3
  have t1 : pushBits c3State1 c3SyncedBuffer (c3Bits.drop 104) =
      (c3State13, c3SyncedBuffer) := by
    rw [← List.take_append_drop 104 (c3Bits.drop 104), List.drop_drop]
    exact pushBits_append_chain h1 t2
  have t0 : pushBits {} {} c3Bits = (c3State13, c3SyncedBuffer) := by
    rw [← List.take_append_drop 104 c3Bits]
    exact pushBits_append_chain h0 t1
  refine ⟨by decide, ?_, ?_⟩
  · rw [t0]; rfl
  · rw [t0]; decide

end redsea
